import Mathlib

/-!
# Verification of the mmsstv-portable SSTV codec

Shallow embedding of the SSTV encoder/decoder sources
(`src/vis.cpp`, `src/vco.cpp`, `src/encoder.cpp`, `src/decoder.cpp`,
`src/modes.cpp`) and proofs about them.

Conventions used throughout:
* C `int`/counters become `ℕ` or `ℤ`; machine `double` arithmetic is
  idealised as exact rational (`ℚ`) arithmetic, with `(int)` casts made
  explicit as floors.  At the concrete sample rates used in witnesses and
  counterexamples (100 Hz, 1000 Hz) every `double` expression involved is
  small and exactly representable, so the idealisation agrees with IEEE
  evaluation there.
* the sine table of the VCO keeps its exact real values
  (`Real.sin (i * 2π / N)`), matching the table built in `VCO::VCO`.
* stateful C code becomes explicit state records plus step functions;
  `while` loops become fuel-indexed recursion (the fuel used in theorems is
  always large enough that it is never exhausted on the inputs considered).
-/

namespace SSTV

/-! ## VIS encoder (`src/vis.cpp`) -/

/-- Sample count of a tone of `ms` milliseconds at sample rate `fs`:
models the C expressions `(int)(0.0xx * sample_freq)`.  The duration is
given in integer milliseconds and the truncation of the exact product is
taken, which coincides with the C double computation at the rates used
here. -/
def msSamples (ms fs : ℕ) : ℕ := ms * fs / 1000

/-- State of `VISEncoder` (vis.h / vis.cpp). -/
structure VISEncoder where
  vis_code : ℕ
  state : ℕ
  sample_freq : ℕ
  samples_remaining : ℕ
  is_16bit : Bool
deriving DecidableEq, Repr

/-- `VISEncoder::calculate_parity` (vis.cpp:35): counts the ones in the
low 8 bits and returns `(ones % 2) ? 0 : 1` (odd parity). -/
def calculate_parity (code : ℕ) : ℕ :=
  let ones := List.foldl (fun acc i => if code.testBit i then acc + 1 else acc) 0 (List.range 8)
  if ones % 2 = 1 then 0 else 1

/-- `VISEncoder::start` (vis.cpp:47); the `unsigned char` parameter is
reduced mod 256 at the call boundary. -/
def VISEncoder.start (code : ℕ) (samplerate : ℕ) : VISEncoder :=
  { vis_code := code % 256
    state := 0
    sample_freq := samplerate
    samples_remaining := msSamples 300 samplerate
    is_16bit := false }

/-- `VISEncoder::start_16bit` (vis.cpp:55); `unsigned short` reduced mod 2^16. -/
def VISEncoder.start_16bit (code : ℕ) (samplerate : ℕ) : VISEncoder :=
  { vis_code := code % 65536
    state := 0
    sample_freq := samplerate
    samples_remaining := msSamples 300 samplerate
    is_16bit := true }

/-- Frequency of a data bit: `bit_val ? 1080.0 : 1320.0` where
`bit_val = (code & (1 << idx)) ? 1 : 0` (vis.cpp:101). -/
def bitFreq (code idx : ℕ) : ℕ :=
  if code.testBit idx then 1080 else 1320

/-- `VISEncoder::get_frequency` (vis.cpp:63): returns the updated encoder
state together with the tone frequency in Hz (`0` is the terminal
sentinel).  Direct translation of the two phases of the C function: the
`samples_remaining > 0` branch which decrements and reports the current
state's tone, and the transition branch which advances `state` and starts
the next tone. -/
def VISEncoder.get_frequency (e : VISEncoder) : VISEncoder × ℕ :=
  let final_state := if e.is_16bit then 21 else 13
  if e.state ≥ final_state then (e, 0)
  else if 0 < e.samples_remaining then
    let e' := { e with samples_remaining := e.samples_remaining - 1 }
    if e.state = 0 ∨ e.state = 2 then (e', 1900)
    else if e.state = 1 then (e', 1200)
    else if e.state = 3 then (e', 1200)
    else if e.state = final_state - 1 then (e', 1200)
    else if ¬ e.is_16bit ∧ 4 ≤ e.state ∧ e.state ≤ 11 then
      (e', bitFreq e.vis_code (e.state - 4))
    else if e.is_16bit then
      if 4 ≤ e.state ∧ e.state ≤ 11 then
        (e', bitFreq (e.vis_code % 256) (e.state - 4))
      else if 12 ≤ e.state ∧ e.state ≤ 19 then
        (e', bitFreq (e.vis_code / 256 % 256) (e.state - 12))
      else if e.state = 20 then (e', 1200)
      else (e', 0)
    else (e', 0)
  else
    let s := e.state + 1
    if s = 1 then
      ({ e with state := s, samples_remaining := msSamples 10 e.sample_freq }, 1200)
    else if s = 2 then
      ({ e with state := s, samples_remaining := msSamples 300 e.sample_freq }, 1900)
    else if s = 3 then
      ({ e with state := s, samples_remaining := msSamples 30 e.sample_freq }, 1200)
    else if ¬ e.is_16bit ∧ 4 ≤ s ∧ s ≤ 11 then
      ({ e with state := s, samples_remaining := msSamples 30 e.sample_freq },
        bitFreq e.vis_code (s - 4))
    else if e.is_16bit ∧ 4 ≤ s ∧ s ≤ 11 then
      ({ e with state := s, samples_remaining := msSamples 30 e.sample_freq },
        bitFreq e.vis_code (s - 4))
    else if e.is_16bit ∧ s = 12 then
      ({ e with state := s, samples_remaining := msSamples 30 e.sample_freq },
        if calculate_parity (e.vis_code % 256) ≠ 0 then 1080 else 1320)
    else if e.is_16bit ∧ 13 ≤ s ∧ s ≤ 20 then
      ({ e with state := s, samples_remaining := msSamples 30 e.sample_freq },
        bitFreq (e.vis_code / 256) (s - 13))
    else if e.is_16bit ∧ s = 21 then
      ({ e with state := s, samples_remaining := msSamples 30 e.sample_freq },
        if calculate_parity (e.vis_code / 256 % 256) ≠ 0 then 1080 else 1320)
    else if s = (if e.is_16bit then 22 else 12) then
      ({ e with state := s, samples_remaining := msSamples 30 e.sample_freq }, 1200)
    else
      ({ e with state := final_state }, 0)

/-- `VISEncoder::get_total_samples` (vis.cpp:220). -/
def VISEncoder.get_total_samples (e : VISEncoder) : ℕ :=
  if e.is_16bit then msSamples 1210 e.sample_freq else msSamples 910 e.sample_freq

/-- `n` successive calls to `get_frequency`, collecting the returned
frequencies in order. -/
def VISEncoder.run (e : VISEncoder) : ℕ → List ℕ
  | 0 => []
  | n + 1 =>
      let p := e.get_frequency
      p.2 :: p.1.run n

/-- The 8 data-bit tones of code `c`, LSB first, each lasting `k` samples. -/
def visBitTones (c k : ℕ) : List ℕ :=
  (List.range 8).flatMap (fun i => List.replicate k (bitFreq c i))

/-- The tone sequence the 8-bit VIS encoder actually emits (amended
characterisation): every tone after the leading 300 ms leader lasts one
sample longer than its nominal duration, because the transition call that
starts a tone already returns the new tone's frequency without
decrementing `samples_remaining`. -/
def visActualSequence (code fs : ℕ) : List ℕ :=
  List.replicate (msSamples 300 fs) 1900 ++
  List.replicate (msSamples 10 fs + 1) 1200 ++
  List.replicate (msSamples 300 fs + 1) 1900 ++
  List.replicate (msSamples 30 fs + 1) 1200 ++
  visBitTones (code % 256) (msSamples 30 fs + 1) ++
  List.replicate (msSamples 30 fs + 1) 1200

/-- Number of samples in `visActualSequence`. -/
def visActualLen (fs : ℕ) : ℕ :=
  msSamples 300 fs + (msSamples 10 fs + 1) + (msSamples 300 fs + 1) +
    (msSamples 30 fs + 1) + 8 * (msSamples 30 fs + 1) + (msSamples 30 fs + 1)

/-- The tone sequence claimed by the specification for the 8-bit VIS
header: each tone held for exactly its nominal duration's worth of
samples (`(int)(dur * fs)` samples).  This definition follows the words of
the claim, to be compared against `visActualSequence`. -/
def visSpecSequence (code fs : ℕ) : List ℕ :=
  List.replicate (msSamples 300 fs) 1900 ++
  List.replicate (msSamples 10 fs) 1200 ++
  List.replicate (msSamples 300 fs) 1900 ++
  List.replicate (msSamples 30 fs) 1200 ++
  visBitTones (code % 256) (msSamples 30 fs) ++
  List.replicate (msSamples 30 fs) 1200

/-- Bit-count of the low 8 bits (the specification's `popcount`). -/
def popcount8 (b : ℕ) : ℕ := (List.range 8).countP (fun i => b.testBit i)

/-! ## VCO (`src/vco.cpp`)

The sine table built in the constructor holds
`sine_table[i] = sin(i * 2π / table_size)`; we keep the exact real
values.  The phase bookkeeping (`phase`, `c1`, `c2`) is rational. -/

/-- State of the `VCO` class (vco.h). -/
structure VCO where
  sample_freq : ℚ
  free_freq : ℚ
  table_size : ℤ
  c1 : ℚ
  c2 : ℚ
  phase : ℚ
deriving DecidableEq

/-- `VCO::VCO(sample_rate)` (vco.cpp:13): `table_size = (int)(sample_rate*2)`,
`c1 = table_size * 1220 / sample_freq`, `c2 = table_size * 1080 / sample_freq`,
zero phase. -/
def VCO.create (sample_rate : ℚ) : VCO :=
  { sample_freq := sample_rate
    free_freq := 1900
    table_size := ⌊sample_rate * 2⌋
    c1 := (⌊sample_rate * 2⌋ : ℚ) * 1220 / sample_rate
    c2 := (⌊sample_rate * 2⌋ : ℚ) * 1080 / sample_rate
    phase := 0 }

/-- `VCO::setFreeFreq` (vco.cpp:40). -/
def VCO.setFreeFreq (v : VCO) (freq_hz : ℚ) : VCO :=
  { v with free_freq := freq_hz, c2 := (v.table_size : ℚ) * freq_hz / v.sample_freq }

/-- `VCO::setGain` (vco.cpp:45). -/
def VCO.setGain (v : VCO) (gain : ℚ) : VCO :=
  { v with c1 := (v.table_size : ℚ) * gain / v.sample_freq }

/-- `VCO::initPhase` (vco.cpp:49). -/
def VCO.initPhase (v : VCO) : VCO := { v with phase := 0 }

/-- The two `while` loops of `VCO::process` reduce the phase into
`[0, table_size)`; for a positive table size this is
`phase - table_size * ⌊phase / table_size⌋`. -/
def wrapPhase (phase : ℚ) (n : ℤ) : ℚ := phase - (n : ℚ) * ⌊phase / (n : ℚ)⌋

/-- The state update and table index of `VCO::process` (vco.cpp:53):
`phase += c2 + c1*input`, wrap, `idx = (int)phase`. -/
def VCO.processStep (v : VCO) (input : ℚ) : VCO × ℤ :=
  let p := wrapPhase (v.phase + v.c2 + v.c1 * input) v.table_size
  ({ v with phase := p }, ⌊p⌋)

/-- Entry `i` of the sine table generated in `VCO::VCO`:
`sin(i * 2π / table_size)`. -/
noncomputable def sineTable (n : ℤ) (i : ℤ) : ℝ :=
  Real.sin ((i : ℝ) * (2 * Real.pi) / (n : ℝ))

/-- `VCO::process`: returns the updated state and `sine_table[idx]`. -/
noncomputable def VCO.process (v : VCO) (input : ℚ) : VCO × ℝ :=
  let s := v.processStep input
  (s.1, sineTable v.table_size s.2)

/-! ## TX encoder (`src/encoder.cpp`)

The modes are the integer values of `sstv_mode_t` (sstv_encoder.h:36). -/

def SSTV_MR73 : ℤ := 21
def SSTV_ML240 : ℤ := 31
def SSTV_ML320 : ℤ := 33
def SSTV_R24 : ℤ := 34
def SSTV_BW8 : ℤ := 35
def SSTV_BW12 : ℤ := 36
def SSTV_MN73 : ℤ := 37
def SSTV_MC180 : ℤ := 42
def SSTV_MODE_COUNT : ℤ := 43

/-- One mode-table row (`sstv_mode_info_t`, the name string elided). -/
structure ModeInfo where
  width : ℕ
  height : ℕ
  vis_code : ℕ
  duration_sec : ℚ
  is_color : Bool
deriving DecidableEq

/-- `mode_table` / `sstv_get_mode_info` (modes.cpp:13,60). -/
def sstv_get_mode_info (mode : ℤ) : Option ModeInfo :=
  if mode < 0 ∨ mode ≥ SSTV_MODE_COUNT then none
  else if mode = 0 then some ⟨320, 240, 0x88, 36, true⟩          -- Robot 36
  else if mode = 1 then some ⟨320, 240, 0x0c, 72, true⟩          -- Robot 72
  else if mode = 2 then some ⟨320, 240, 0x44, 90, true⟩          -- AVT 90
  else if mode = 3 then some ⟨320, 256, 0x3c, 109624/1000, true⟩ -- Scottie 1
  else if mode = 4 then some ⟨320, 256, 0xb8, 71089/1000, true⟩  -- Scottie 2
  else if mode = 5 then some ⟨320, 256, 0xcc, 268877/1000, true⟩ -- ScottieDX
  else if mode = 6 then some ⟨320, 256, 0xac, 114290/1000, true⟩ -- Martin 1
  else if mode = 7 then some ⟨320, 256, 0x28, 58060/1000, true⟩  -- Martin 2
  else if mode = 8 then some ⟨320, 256, 0xb7, 182027/1000, true⟩ -- SC2 180
  else if mode = 9 then some ⟨320, 256, 0x3f, 121734/1000, true⟩ -- SC2 120
  else if mode = 10 then some ⟨320, 256, 0xbb, 61539/1000, true⟩ -- SC2 60
  else if mode = 11 then some ⟨320, 256, 0xdd, 49684/1000, true⟩ -- PD50
  else if mode = 12 then some ⟨320, 256, 0x63, 89989/1000, true⟩ -- PD90
  else if mode = 13 then some ⟨640, 496, 0x5f, 126103/1000, true⟩ -- PD120
  else if mode = 14 then some ⟨512, 400, 0xe2, 160883/1000, true⟩ -- PD160
  else if mode = 15 then some ⟨640, 496, 0x60, 187051/1000, true⟩ -- PD180
  else if mode = 16 then some ⟨640, 496, 0xe1, 248, true⟩         -- PD240
  else if mode = 17 then some ⟨800, 616, 0xde, 288682/1000, true⟩ -- PD290
  else if mode = 18 then some ⟨640, 496, 0x71, 203050/1000, true⟩ -- P3
  else if mode = 19 then some ⟨640, 496, 0x72, 304575/1000, true⟩ -- P5
  else if mode = 20 then some ⟨640, 496, 0xf3, 406100/1000, true⟩ -- P7
  else if mode = 21 then some ⟨320, 256, 0x45, 73293/1000, true⟩  -- MR73
  else if mode = 22 then some ⟨320, 256, 0x46, 90189/1000, true⟩  -- MR90
  else if mode = 23 then some ⟨320, 256, 0x49, 115277/1000, true⟩ -- MR115
  else if mode = 24 then some ⟨320, 256, 0x4a, 140365/1000, true⟩ -- MR140
  else if mode = 25 then some ⟨320, 256, 0x4c, 175181/1000, true⟩ -- MR175
  else if mode = 26 then some ⟨320, 256, 0x25, 72960/1000, true⟩  -- MP73
  else if mode = 27 then some ⟨320, 256, 0x29, 115456/1000, true⟩ -- MP115
  else if mode = 28 then some ⟨320, 256, 0x2a, 139520/1000, true⟩ -- MP140
  else if mode = 29 then some ⟨320, 256, 0x2c, 175360/1000, true⟩ -- MP175
  else if mode = 30 then some ⟨640, 496, 0x85, 180197/1000, true⟩ -- ML180
  else if mode = 31 then some ⟨640, 496, 0x86, 239717/1000, true⟩ -- ML240
  else if mode = 32 then some ⟨640, 496, 0x89, 280389/1000, true⟩ -- ML280
  else if mode = 33 then some ⟨640, 496, 0x8a, 320069/1000, true⟩ -- ML320
  else if mode = 34 then some ⟨320, 240, 0x84, 24, true⟩          -- Robot 24
  else if mode = 35 then some ⟨320, 240, 0x82, 8028/1000, false⟩  -- B/W 8
  else if mode = 36 then some ⟨320, 240, 0x86, 12, false⟩         -- B/W 12
  else if mode = 37 then some ⟨320, 256, 0x00, 72960/1000, true⟩  -- MP73-N
  else if mode = 38 then some ⟨320, 256, 0x00, 109824/1000, true⟩ -- MP110-N
  else if mode = 39 then some ⟨320, 256, 0x00, 139520/1000, true⟩ -- MP140-N
  else if mode = 40 then some ⟨320, 256, 0x00, 109696/1000, true⟩ -- MC110-N
  else if mode = 41 then some ⟨320, 256, 0x00, 140416/1000, true⟩ -- MC140-N
  else some ⟨320, 256, 0x00, 180352/1000, true⟩                   -- MC180-N

/-- `line_count` assigned per mode in `compute_mode_timing`
(encoder.cpp:219), the only timing field the generate loop reads. -/
def mode_line_count (mode : ℤ) : ℕ :=
  if mode = 0 ∨ mode = 1 ∨ mode = 2 then 240
  else if mode = 11 ∨ mode = 12 then 128
  else if mode = 13 ∨ mode = 15 ∨ mode = 16 then 248
  else if mode = 14 then 200
  else if mode = 17 then 308
  else if mode = 18 ∨ mode = 19 ∨ mode = 20 then 496
  else if 26 ≤ mode ∧ mode ≤ 29 then 128
  else if 30 ≤ mode ∧ mode ≤ 33 then 496
  else if mode = 34 ∨ mode = 35 ∨ mode = 36 then 120
  else if mode = 37 ∨ mode = 38 ∨ mode = 39 then 128
  else 256

/-- The borrowed image (`sstv_image_t`): dimensions plus a grayscale
pixel lookup; `get_pixel_rgb` on a `SSTV_GRAY8` image returns the byte
for all three channels, so a single component per pixel suffices for the
grayscale modes considered concretely. -/
structure EncImage where
  width : ℕ
  height : ℕ
  pixel : ℕ → ℕ → ℕ

/-- One TX segment (`struct Segment`, encoder.cpp:43). -/
structure Segment where
  freq : ℚ
  samples : ℕ
deriving DecidableEq

/-- `sstv_encoder_s` (encoder.cpp:723) restricted to the fields the
generate/reset paths read or write (debug-only and duplicated timing
fields elided; the sample rate is integral, covering every rate the
library's callers use). -/
structure EncState where
  mode : ℤ
  sample_rate : ℕ
  vis_enabled : Bool
  hasImage : Bool
  image : EncImage
  samples_generated : ℕ
  complete : Bool
  vco : VCO
  vis : VISEncoder
  vis_active : Bool
  preamble_enabled : Bool
  stage : ℕ
  timed_line : ℕ
  image_line : ℕ
  total_timed_lines : ℕ
  segments : List Segment
  segment_index : ℕ
  segment_offset : ℕ
  segment_fraction : ℚ

/-- `clamp` of the VCO control input in `sstv_encoder_generate`
(`if (norm < 0.0) norm = 0.0; if (norm > 1.0) norm = 1.0`). -/
def clamp01 (q : ℚ) : ℚ := if q < 0 then 0 else if q > 1 then 1 else q

/-- `push_segment_ms` (encoder.cpp:780): exact duration in samples plus
the running fraction; the `(size_t)` truncation leaves the new fraction. -/
def push_segment_ms (e : EncState) (freq : ℚ) (ms : ℚ) : EncState :=
  if ms ≤ 0 then e
  else
    let exact := ms * (e.sample_rate : ℚ) / 1000
    let total := exact + e.segment_fraction
    let samples : ℤ := ⌊total⌋
    let e' := { e with segment_fraction := total - (samples : ℚ) }
    if samples = 0 then e'
    else { e' with segments := e'.segments ++ [⟨freq, samples.toNat⟩] }

/-- `write_preamble` (encoder.cpp:793), standard (non-narrow) branch:
eight 100 ms tones. -/
def write_preamble_std (e : EncState) : EncState :=
  List.foldl (fun e p => push_segment_ms e p.1 p.2) e
    [((1900 : ℚ), (100 : ℚ)), (1500, 100), (1900, 100), (1500, 100),
     (2300, 100), (1500, 100), (2300, 100), (1500, 100)]

/-- `clamp_0_255` (encoder.cpp:48). -/
def clamp_0_255 (v : ℤ) : ℤ := if v < 0 then 0 else if v > 255 then 255 else v

/-- `color_to_freq` (encoder.cpp:54): `d * (2300-1500)/256 + 1500`. -/
def color_to_freq (d : ℤ) : ℤ := d * (2300 - 1500) / 256 + 1500

/-- The luminance component of `get_ry` (encoder.cpp:81):
`y = (int)(16.0 + 0.256773 R + 0.504097 G + 0.097900 B)`, clamped. -/
def get_ry_y (r g b : ℕ) : ℤ :=
  clamp_0_255 ⌊(16 : ℚ) + ((256773 : ℚ)/1000000 * r + (504097 : ℚ)/1000000 * g
    + (97900 : ℚ)/1000000 * b)⌋

/-- `write_line_rm` (encoder.cpp:1135), the B/W scanline writer: sync,
porch, then one luminance run per pixel averaged over two image rows. -/
def write_line_rm (e : EncState) (ts tw : ℚ) : EncState :=
  let width := e.image.width
  let row := e.image_line
  let next_line := if row + 1 ≥ e.image.height then e.image.height - 1 else row + 1
  let e := push_segment_ms e 1200 ts
  let e := push_segment_ms e 1500 (ts / 3)
  let t := tw / (width : ℚ)
  List.foldl (fun e x =>
      let p := e.image.pixel x row
      let y1 := get_ry_y p p p
      let q := e.image.pixel x next_line
      let y2 := get_ry_y q q q
      let yy := (y2 + y1) / 2
      push_segment_ms e ((color_to_freq yy : ℤ) : ℚ) t)
    e (List.range width)

/-- `generate_next_line_segments` (encoder.cpp:1211) for mode B/W 12:
clears the segment list and writes one `write_line_rm(6.0, 92.0)` line;
B/W 12 is not a Scottie mode, so the first-line sync pulse is skipped. -/
def bw12_next_line (e : EncState) : Option EncState :=
  if ¬ e.hasImage then none
  else if e.timed_line ≥ e.total_timed_lines then none
  else
    let e := { e with segments := [], segment_index := 0, segment_offset := 0 }
    let e := write_line_rm e 6 92
    some { e with timed_line := e.timed_line + 1, image_line := e.image_line + 2 }

/-- The VIS part of the `samples_generated == 0` block of
`sstv_encoder_generate` (encoder.cpp:1539) for mode B/W 12: the mode has
VIS code `0x86`, is not narrow and has no 16-bit VIS word, so the 8-bit
`vis.start` is used; afterwards `if (!vis_active && stage == 1) stage = 2`. -/
def bw12_init_vis (e : EncState) : EncState :=
  let e :=
    if e.vis_enabled then
      { e with vis := VISEncoder.start 0x86 e.sample_rate, vis_active := true }
    else { e with vis_active := false }
  if ¬ e.vis_active ∧ e.stage = 1 then { e with stage := 2 } else e

/-- The mode-specific collaborators of the generate loop: preamble
writer, VIS starter, and scanline generator.  `sstv_encoder_generate`'s
sample-emission loop is independent of them. -/
structure GenEnv where
  writePreamble : EncState → EncState
  initVis : EncState → EncState
  nextLine : EncState → Option EncState

/-- The `GenEnv` of mode B/W 12. -/
def bw12Env : GenEnv :=
  { writePreamble := write_preamble_std
    initVis := bw12_init_vis
    nextLine := bw12_next_line }

/-- One emitted sample, as the token that determines its value: `some i`
for `sine_table[i]`, `none` for the literal `0.0f` emitted when a
segment's frequency is not positive. -/
abbrev SampleTok := Option ℤ

/-- The `while (produced < max_samples)` loop of `sstv_encoder_generate`
(encoder.cpp:1560) with an unbounded output buffer, accumulating emitted
samples (most recent first); direct translation of the loop body, with
`fuel` bounding the number of iterations (every complete run in this file
uses fuel large enough that it is not exhausted). -/
def genLoop (env : GenEnv) : ℕ → EncState → List SampleTok → EncState × List SampleTok
  | 0, e, acc => (e, acc)
  | fuel + 1, e, acc =>
    let e := if e.stage = 0 ∧ e.segments = [] then env.writePreamble e else e
    if e.stage = 1 then
      if e.vis_active then
        let vp := e.vis.get_frequency
        if vp.2 = 0 then
              genLoop env fuel { e with vis := vp.1, vis_active := false, stage := 2 } acc
        else
          let norm := clamp01 (((vp.2 : ℚ) - 1080) / 1220)
          let st := e.vco.processStep norm
          genLoop env fuel
            { e with
              vis := vp.1
              vco := st.1
              samples_generated := e.samples_generated + 1 }
            (some st.2 :: acc)
      else genLoop env fuel { e with stage := 2 } acc
    else
      if e.stage = 0 ∧ e.segments.length ≤ e.segment_index then
        genLoop env fuel
          { e with
            stage := if e.vis_active then 1 else 2
            segments := []
            segment_index := 0
            segment_offset := 0 } acc
      else
        match (if e.stage = 2 ∧ e.segments.length ≤ e.segment_index
               then env.nextLine e else some e) with
        | none => ({ e with complete := true }, acc)
        | some e =>
          if e.segments.length ≤ e.segment_index then genLoop env fuel e acc
          else
            match e.segments.get? e.segment_index with
            | none => genLoop env fuel e acc
            | some seg =>
              if seg.samples ≤ e.segment_offset then
                genLoop env fuel
                  { e with
                    segment_index := e.segment_index + 1
                    segment_offset := 0 } acc
              else
                if 0 < seg.freq then
                  let st := e.vco.processStep (clamp01 ((seg.freq - 1100) / 1200))
                  genLoop env fuel
                    { e with
                      vco := st.1
                      samples_generated := e.samples_generated + 1
                      segment_offset := e.segment_offset + 1 }
                    (some st.2 :: acc)
                else
                  genLoop env fuel
                    { e with
                      samples_generated := e.samples_generated + 1
                      segment_offset := e.segment_offset + 1 }
                    (none :: acc)

/-- `sstv_encoder_generate` (encoder.cpp:1520) called once with an
unbounded buffer, i.e. run to completion: null/complete/no-image guards,
the `samples_generated == 0` initialisation block, then the loop.
Returns the final encoder state and the emitted samples in order. -/
def sstv_encoder_generate (env : GenEnv) (fuel : ℕ) (e : EncState) :
    EncState × List SampleTok :=
  if e.complete then (e, [])
  else if ¬ e.hasImage then (e, [])
  else
    let e :=
      if e.samples_generated = 0 then
        env.initVis
          { e with
            segment_fraction := 0
            segments := []
            segment_index := 0
            segment_offset := 0
            timed_line := 0
            stage := if e.preamble_enabled then 0 else 1
            image_line := 0
            total_timed_lines := mode_line_count e.mode }
      else e
    let r := genLoop env fuel e []
    (r.1, r.2.reverse)

/-- The real value of an emitted sample token. -/
noncomputable def tokenSample (n : ℤ) : SampleTok → ℝ
  | none => 0
  | some i => sineTable n i

/-- The float stream written by a completed `sstv_encoder_generate` call. -/
noncomputable def generateSamples (env : GenEnv) (fuel : ℕ) (e : EncState) : List ℝ :=
  ((sstv_encoder_generate env fuel e).2).map (tokenSample e.vco.table_size)

/-- `sstv_encoder_create` (encoder.cpp:1453): rejects only an
out-of-range mode — there is no sample-rate check — and initialises the
state; the VCO is retuned to 1080 Hz base and 1220 Hz span, the VIS
member is default-constructed (vis.cpp:33). -/
def sstv_encoder_create (mode : ℤ) (sample_rate : ℕ) : Option EncState :=
  if mode < 0 ∨ SSTV_MODE_COUNT ≤ mode then none
  else some
    { mode := mode
      sample_rate := sample_rate
      vis_enabled := true
      hasImage := false
      image := ⟨0, 0, fun _ _ => 0⟩
      samples_generated := 0
      complete := false
      vco := ((VCO.create (sample_rate : ℚ)).setFreeFreq 1080).setGain 1220
      vis := ⟨0, 0, 48000, 0, false⟩
      vis_active := false
      preamble_enabled := true
      stage := 0
      timed_line := 0
      image_line := 0
      total_timed_lines := mode_line_count mode
      segments := []
      segment_index := 0
      segment_offset := 0
      segment_fraction := 0 }

/-- `sstv_encoder_set_image` (encoder.cpp:1497): fails unless the image
dimensions equal the mode's geometry. -/
def sstv_encoder_set_image (e : EncState) (img : EncImage) : Option EncState :=
  match sstv_get_mode_info e.mode with
  | none => none
  | some info =>
      if img.width ≠ info.width ∨ img.height ≠ info.height then none
      else some { e with
        image := img
        hasImage := true
        total_timed_lines := mode_line_count e.mode }

/-- `sstv_encoder_reset` (encoder.cpp:1638): clears the streaming state;
note that the VCO (in particular its phase) is not touched. -/
def sstv_encoder_reset (e : EncState) : EncState :=
  { e with
    samples_generated := 0
    complete := false
    segments := []
    segment_index := 0
    segment_offset := 0
    segment_fraction := 0
    timed_line := 0
    image_line := 0
    vis_active := false
    stage := if e.preamble_enabled then 0 else 1 }

/-- A state with the configuration and image of `e`, the streaming state
of a freshly created encoder, a default-constructed VIS member as after
`sstv_encoder_create`, and the VCO carried over from `e`. -/
def freshLike (e : EncState) : EncState :=
  { e with
    samples_generated := 0
    complete := false
    segments := []
    segment_index := 0
    segment_offset := 0
    segment_fraction := 0
    timed_line := 0
    image_line := 0
    vis_active := false
    stage := if e.preamble_enabled then 0 else 1
    vis := ⟨0, 0, 48000, 0, false⟩ }

/-- The all-black 320×240 grayscale image used in the concrete B/W 12 run. -/
def blackImage : EncImage := ⟨320, 240, fun _ _ => 0⟩

/-- The encoder state after `sstv_encoder_create(SSTV_BW12, 100)` and
`sstv_encoder_set_image` with the all-black image. -/
def bw12e0 : EncState :=
  { mode := SSTV_BW12
    sample_rate := 100
    vis_enabled := true
    hasImage := true
    image := blackImage
    samples_generated := 0
    complete := false
    vco := ((VCO.create (100 : ℚ)).setFreeFreq 1080).setGain 1220
    vis := ⟨0, 0, 48000, 0, false⟩
    vis_active := false
    preamble_enabled := true
    stage := 0
    timed_line := 0
    image_line := 0
    total_timed_lines := 120
    segments := []
    segment_index := 0
    segment_offset := 0
    segment_fraction := 0 }

/-! ## RX decoder (`src/decoder.cpp`)

The decoder claims concern the sync/VIS state machine, the feed/reset/
get_image API surface and the image assembler, all of which consume the
four rectified tone-envelope energies computed by the DSP front end
(decoder.cpp:823-839).  The front end itself (clip, adjacent-average LPF,
band-pass FIR, CLVL AGC, tank resonators and 50 Hz envelope LPFs) is
floating-point filtering upstream of every claim considered here; the
embedding therefore takes the energies as the per-sample input.  The
dead-state CSYNCINT trackers (only ever incremented or reinitialised,
never influencing control flow) and the buffered-VIS scratch buffers
(written but never driving the state machine used by `sstv_decoder_feed`)
are likewise elided. -/

/-- `sstv_rx_status_t` (sstv_decoder.h:27). -/
inductive RxStatus where
  | ok
  | needMore
  | imageReady
  | error
deriving DecidableEq, Repr

/-- Per-sample input of the sync/VIS machine: the envelopes of the
1080 / 1200 / 1320 / 1900 Hz tone detectors. -/
structure ToneEnergies where
  d11 : ℚ
  d12 : ℚ
  d13 : ℚ
  d19 : ℚ
deriving DecidableEq

/-- `image_buffer_t` (decoder.cpp:129); the pixel bytes themselves are
not observed by any claim and are elided, `none` models `pixels == NULL`. -/
structure ImgBuf where
  width : ℕ
  height : ℕ
  bytes_per_pixel : ℕ
  current_line : ℤ
  current_col : ℤ
deriving DecidableEq, Repr

/-- `image_decoder_t` (decoder.cpp:138). -/
structure ImgDec where
  state : ℕ
  sample_counter : ℤ
  samples_per_pixel : ℚ
  current_channel : ℤ
  freq_accum : ℚ
  freq_samples : ℤ
deriving DecidableEq, Repr

/-- `sstv_decoder_s` (decoder.cpp:159) restricted to the fields read or
written by the embedded functions (see the section comment). -/
structure DecState where
  sample_rate : ℚ
  mode_hint : ℤ
  detected_mode : ℤ
  vis_enabled : Bool
  last_status : RxStatus
  sync_state : ℕ
  sync_mode : ℤ
  sync_time : ℤ
  leader_drop_count : ℤ
  vis_data : ℕ
  vis_cnt : ℕ
  vis_parity_pending : ℤ
  vis_extended : ℤ
  sense_level : ℤ
  s_lvl : ℚ
  s_lvl2 : ℚ
  s_lvl3 : ℚ
  image_buf : Option ImgBuf
  img_dec : ImgDec
  agc_peak_level : ℚ
  agc_sample_count : ℤ
deriving DecidableEq

/-- `VIS_CODE_MAP` (decoder.cpp:238), in source order; modes by their
`sstv_mode_t` value. -/
def VIS_CODE_MAP : List (ℕ × ℤ) :=
  [(0x84, 34), (0x88, 0), (0x0C, 1), (0x44, 2), (0x3C, 3), (0xB8, 4),
   (0xCC, 5), (0xAC, 6), (0x28, 7), (0xB7, 8), (0x3F, 9), (0xBB, 10),
   (0xDD, 11), (0x63, 12), (0x5F, 13), (0xE2, 14), (0x60, 15), (0xE1, 16),
   (0xDE, 17), (0x71, 18), (0x72, 19), (0xF3, 20), (0x82, 35), (0x86, 36),
   (0x45, 21), (0x46, 22), (0x49, 23), (0x4A, 24), (0x4C, 25), (0x25, 26),
   (0x29, 27), (0x2A, 28), (0x2C, 29), (0x85, 30), (0x86, 31), (0x89, 32),
   (0x8A, 33), (0x73, 37), (0x6E, 38), (0x8C, 39), (0x6A, 40), (0x8D, 41),
   (0x8E, 42)]

/-- The table loop of `vis_code_to_mode` (decoder.cpp:1047): first match
that also passes the standard/extended range filter. -/
def vis_map_search (vis_code : ℕ) (is_extended : Bool) : List (ℕ × ℤ) → ℤ
  | [] => SSTV_MODE_COUNT
  | (c, m) :: rest =>
      if c = vis_code then
        if is_extended then
          if (SSTV_MR73 ≤ m ∧ m ≤ SSTV_ML320) ∨ (SSTV_MN73 ≤ m ∧ m ≤ SSTV_MC180) then m
          else vis_map_search vis_code is_extended rest
        else
          if (m < SSTV_MR73 ∨ m > SSTV_ML320) ∧ (m < SSTV_MN73 ∨ m > SSTV_MC180) then m
          else vis_map_search vis_code is_extended rest
      else vis_map_search vis_code is_extended rest

/-- `vis_code_to_mode` (decoder.cpp:1040). -/
def vis_code_to_mode (vis_code : ℕ) (is_extended : Bool) : ℤ :=
  if ¬ is_extended ∧ vis_code = 0x23 then SSTV_MODE_COUNT
  else vis_map_search vis_code is_extended VIS_CODE_MAP

/-- `decoder_set_sense_levels` (decoder.cpp:658). -/
def decoder_set_sense_levels (d : DecState) : DecState :=
  if d.sense_level = 1 then { d with s_lvl := 3500, s_lvl2 := 80, s_lvl3 := 5700 }
  else if d.sense_level = 2 then { d with s_lvl := 4800, s_lvl2 := 80, s_lvl3 := 6800 }
  else if d.sense_level = 3 then { d with s_lvl := 6000, s_lvl2 := 80, s_lvl3 := 8000 }
  else { d with s_lvl := 2400, s_lvl2 := 80, s_lvl3 := 5000 }

/-- `decoder_reset_state` (decoder.cpp:684).  Note what it does NOT
touch: `detected_mode`, `vis_parity_pending`, the sense levels. -/
def decoder_reset_state (d : DecState) : DecState :=
  { d with
    sync_state := 0
    sync_mode := 0
    sync_time := 0
    leader_drop_count := 0
    vis_data := 0
    vis_cnt := 0
    vis_extended := 0
    agc_peak_level := 0
    agc_sample_count := 0
    image_buf := none
    img_dec :=
      { state := 0, sample_counter := 0, samples_per_pixel := 1,
        current_channel := 0, freq_accum := 0, freq_samples := 0 } }

/-- `sstv_decoder_create` (decoder.cpp:315): non-positive sample rate
gives `NULL`, otherwise the state is initialised and
`decoder_reset_state` is applied. -/
def sstv_decoder_create (sample_rate : ℚ) : Option DecState :=
  if sample_rate ≤ 0 then none
  else some (decoder_reset_state (decoder_set_sense_levels
    { sample_rate := sample_rate
      mode_hint := SSTV_MODE_COUNT
      detected_mode := SSTV_MODE_COUNT
      vis_enabled := true
      last_status := RxStatus.needMore
      sync_state := 0
      sync_mode := 0
      sync_time := 0
      leader_drop_count := 0
      vis_data := 0
      vis_cnt := 0
      vis_parity_pending := 0
      vis_extended := 0
      sense_level := 0
      s_lvl := 0
      s_lvl2 := 0
      s_lvl3 := 0
      image_buf := none
      img_dec :=
        { state := 0, sample_counter := 0, samples_per_pixel := 1,
          current_channel := 0, freq_accum := 0, freq_samples := 0 }
      agc_peak_level := 0
      agc_sample_count := 0 }))

/-- `sstv_decoder_reset` (decoder.cpp:423) on a non-null decoder. -/
def sstv_decoder_reset (d : DecState) : DecState :=
  { decoder_reset_state d with
    mode_hint := SSTV_MODE_COUNT
    last_status := RxStatus.needMore }

/-- `frequency_to_color` (decoder.cpp:1248). -/
def frequency_to_color (freq_hz : ℚ) : ℤ :=
  if freq_hz ≤ 1500 then 0
  else if freq_hz ≥ 2300 then 255
  else
    let normalized := (freq_hz - 1500) / (2300 - 1500)
    let color := ⌊normalized * 255 + 1/2⌋
    if color < 0 then 0 else if color > 255 then 255 else color

/-- `decoder_process_image_sample` (decoder.cpp:1312): ratio-based
frequency estimate, accumulation, and the pixel/line cursor advance
(the stored byte value is not modelled, see the section comment). -/
def decoder_process_image_sample (d : DecState) (f11 f13 : ℚ) : DecState :=
  match d.image_buf with
  | none => d
  | some buf =>
      let total_energy := f11 + f13
      let total_energy := if total_energy < 1 then 1 else total_energy
      let ratio := f13 / total_energy
      let estimated_freq := 1500 + ratio * 800
      let color := frequency_to_color estimated_freq
      let g :=
        { d.img_dec with
          freq_accum := d.img_dec.freq_accum + (color : ℚ)
          freq_samples := d.img_dec.freq_samples + 1
          sample_counter := d.img_dec.sample_counter + 1 }
      if g.sample_counter ≥ ⌊g.samples_per_pixel⌋ then
        let buf := { buf with current_col := buf.current_col + 1 }
        let buf :=
          if buf.current_col ≥ (buf.width : ℤ) then
            { buf with current_col := 0, current_line := buf.current_line + 1 }
          else buf
        let g :=
          if buf.current_col = 0 ∧ buf.current_line ≥ (buf.height : ℤ) then
            { g with state := 8 }
          else g
        { d with
          image_buf := some buf
          img_dec := { g with sample_counter := 0, freq_accum := 0, freq_samples := 0 } }
      else { d with img_dec := g }

/-- `case 0` of the sync switch (decoder.cpp:865): wait for 12 ms of
sustained start-bit tone before validating. -/
def decoder_sync_case0 (d : DecState) (x : ToneEnergies) : DecState :=
  if x.d12 > x.d19 ∧ x.d12 > d.s_lvl ∧ x.d12 - x.d19 ≥ d.s_lvl then
    if d.sync_time = 0 then
      { d with sync_time := ⌊12 * d.sample_rate / 1000⌋ }
    else
      let d := { d with sync_time := d.sync_time - 1 }
      if d.sync_time = 0 then
        { d with
          sync_mode := 1
          sync_time := ⌊15 * d.sample_rate / 1000⌋
          sync_state := 1 }
      else d
  else { d with sync_time := 0 }

/-- `case 1` of the sync switch (decoder.cpp:896): 15 ms validation. -/
def decoder_sync_case1 (d : DecState) (x : ToneEnergies) : DecState :=
  if x.d12 > x.d19 ∧ x.d12 > d.s_lvl ∧ x.d12 - x.d19 ≥ d.s_lvl then
    let d := { d with sync_time := d.sync_time - 1 }
    if d.sync_time = 0 then
      { d with
        sync_mode := 2
        sync_time := ⌊30 * d.sample_rate / 1000⌋
        vis_data := 0
        vis_cnt := 8
        vis_parity_pending := 0
        vis_extended := 0
        sync_state := 3 }
    else d
  else { d with sync_mode := 0, sync_state := 0 }

/-- The byte-completion block of `case 2/9` (decoder.cpp:974, the
`!dec->vis_cnt` branch). -/
def decoder_vis_complete (d : DecState) : DecState :=
  let data_bits := d.vis_data % 128
  if d.sync_mode = 2 then
    if data_bits = 0x23 then
      { d with sync_mode := 9, vis_data := 0, vis_cnt := 8, vis_extended := 1 }
    else
      let mode := vis_code_to_mode (d.vis_data % 256) false
      let d :=
        if mode ≠ SSTV_MODE_COUNT then
          { d with detected_mode := mode, sync_state := 4 }
        else d
      { d with sync_mode := 0 }
  else
    let mode := vis_code_to_mode (d.vis_data % 256) true
    let d :=
      if mode ≠ SSTV_MODE_COUNT then
        { d with detected_mode := mode, sync_state := 4 }
      else d
    { d with sync_mode := 0 }

/-- `case 2`/`case 9` of the sync switch (decoder.cpp:930): sample one
VIS bit per 30 ms window. -/
def decoder_sync_case29 (d : DecState) (x : ToneEnergies) : DecState :=
  let d := { d with sync_time := d.sync_time - 1 }
  if d.sync_time ≠ 0 then d
  else
    if x.d11 < x.d19 ∧ x.d13 < x.d19 ∧ |x.d11 - x.d13| < d.s_lvl2 then
      { d with sync_mode := 0, sync_state := 0 }
    else
      let d := { d with sync_time := ⌊30 * d.sample_rate / 1000⌋ }
      let bit_pos := 8 - d.vis_cnt
      let d :=
        if x.d11 > x.d13 then { d with vis_data := d.vis_data ||| (1 <<< bit_pos) } else d
      let d := { d with vis_cnt := d.vis_cnt - 1 }
      if d.vis_cnt ≠ 0 then d
      else decoder_vis_complete d

/-- The `switch (dec->sync_mode)` state machine of
`decoder_process_sample` (decoder.cpp:864), one function per case. -/
def decoder_sync_fsm (d : DecState) (x : ToneEnergies) : DecState :=
  if d.sync_mode = 0 then decoder_sync_case0 d x
  else if d.sync_mode = 1 then decoder_sync_case1 d x
  else if d.sync_mode = 3 ∨ d.sync_mode = 4 then
    { d with sync_mode := 0, sync_state := 0 }
  else if d.sync_mode = 2 ∨ d.sync_mode = 9 then decoder_sync_case29 d x
  else { d with sync_mode := 0, sync_state := 0 }

/-- `decoder_process_sample` (decoder.cpp:752) downstream of the tone
detectors: the image-decode branch (decoder.cpp:842) followed by the
sync/VIS state machine. -/
def decoder_process_sample (d : DecState) (x : ToneEnergies) : DecState :=
  decoder_sync_fsm
    (if d.sync_state = 4 ∧ d.image_buf.isSome ∧ d.img_dec.state ≠ 8 then
      decoder_process_image_sample d x.d11 x.d13
    else d) x

/-- `decoder_check_vis_ready` (decoder.cpp:1381). -/
def decoder_check_vis_ready (d : DecState) : Bool :=
  d.detected_mode ≠ SSTV_MODE_COUNT

/-- `decoder_allocate_image_buffer` (decoder.cpp:1178); `allocOk` models
the success of `malloc`.  `samples_per_pixel` is
`(duration_sec / height) * sample_rate / width`. -/
def decoder_allocate_image_buffer (d : DecState) (mode : ℤ) (allocOk : Bool) :
    Option DecState :=
  match sstv_get_mode_info mode with
  | none => none
  | some info =>
      if ¬ allocOk then none
      else some
        { d with
          image_buf := some ⟨info.width, info.height, 3, 0, 0⟩
          img_dec :=
            { state := 1
              sample_counter := 0
              samples_per_pixel :=
                info.duration_sec / (info.height : ℚ) * d.sample_rate / (info.width : ℚ)
              current_channel := 0
              freq_accum := 0
              freq_samples := 0 } }

/-- `sstv_decoder_feed` (decoder.cpp:1407): null/empty guards, per-sample
processing, then allocation on VIS lock and the status decision.  `none`
for either pointer models `NULL`. -/
def sstv_decoder_feed (dec : Option DecState) (samples : Option (List ToneEnergies))
    (allocOk : Bool) : Option DecState × RxStatus :=
  match dec, samples with
  | none, _ => (none, RxStatus.error)
  | some d, none => (some d, RxStatus.error)
  | some d, some l =>
      if l.length = 0 then (some d, RxStatus.error)
      else
        let d := l.foldl decoder_process_sample d
        if decoder_check_vis_ready d then
          match (if d.image_buf.isNone
                 then decoder_allocate_image_buffer d d.detected_mode allocOk
                 else some d) with
          | none => (some { d with last_status := RxStatus.error }, RxStatus.error)
          | some d =>
              if d.img_dec.state = 8 then
                (some { d with last_status := RxStatus.imageReady }, RxStatus.imageReady)
              else
                (some { d with last_status := RxStatus.needMore }, RxStatus.needMore)
        else (some { d with last_status := RxStatus.needMore }, RxStatus.needMore)

/-- The RGB24 view filled in by a successful `sstv_decoder_get_image`. -/
structure ImageView where
  width : ℕ
  height : ℕ
  stride : ℕ
deriving DecidableEq, Repr

/-- `sstv_decoder_get_image` (decoder.cpp:1452): `-1` (here `none`) for a
null decoder or while `image_buf.pixels` is unallocated, otherwise the
RGB24 view. -/
def sstv_decoder_get_image (dec : Option DecState) : Option ImageView :=
  match dec with
  | none => none
  | some d =>
      match d.image_buf with
      | none => none
      | some buf => some ⟨buf.width, buf.height, buf.width * 3⟩

/-! ### Concrete decoder input (MR-73 via extended VIS) -/

/-- A strong, clean 1200 Hz sync/start tone. -/
def predTone : ToneEnergies := ⟨0, 9000, 0, 0⟩

/-- A dominant 1080 Hz mark tone (VIS bit 1). -/
def bit1Tone : ToneEnergies := ⟨9000, 0, 0, 0⟩

/-- A dominant 1320 Hz space tone (VIS bit 0). -/
def bit0Tone : ToneEnergies := ⟨0, 0, 9000, 0⟩

/-- Silence. -/
def quietTone : ToneEnergies := ⟨0, 0, 0, 0⟩

/-- One 30 ms VIS bit window at 1000 Hz: the machine only samples the
energies on the sample where its 30 ms timer expires. -/
def visBitInput (b : Bool) : List ToneEnergies :=
  List.replicate 29 quietTone ++ [if b then bit1Tone else bit0Tone]

/-- The eight bit windows of one VIS byte, LSB first. -/
def byteInput (code : ℕ) : List ToneEnergies :=
  (List.range 8).flatMap (fun i => visBitInput (code.testBit i))

/-- A clean extended-VIS transmission at 1000 Hz: sustained start bit
(12 ms trigger + 15 ms validation), then the bytes `0x23` and `0x45`. -/
def mr73Input : List ToneEnergies :=
  List.replicate 13 predTone ++ List.replicate 15 predTone ++
    byteInput 0x23 ++ byteInput 0x45

/-- 27 clean start-bit samples — one short of completing validation —
followed by one quiet sample: the quiet sample drops the machine from
VALIDATING back to IDLE, leaving the stale validation-timer value `1`
in `sync_time`. -/
def c9Prefix : List ToneEnergies :=
  List.replicate 27 predTone ++ [quietTone]

/-- The decoder state right after `sstv_decoder_create(1000)`. -/
def dec1000 : DecState :=
  { sample_rate := 1000
    mode_hint := 43
    detected_mode := 43
    vis_enabled := true
    last_status := RxStatus.needMore
    sync_state := 0
    sync_mode := 0
    sync_time := 0
    leader_drop_count := 0
    vis_data := 0
    vis_cnt := 0
    vis_parity_pending := 0
    vis_extended := 0
    sense_level := 0
    s_lvl := 2400
    s_lvl2 := 80
    s_lvl3 := 5000
    image_buf := none
    img_dec :=
      { state := 0, sample_counter := 0, samples_per_pixel := 1,
        current_channel := 0, freq_accum := 0, freq_samples := 0 }
    agc_peak_level := 0
    agc_sample_count := 0 }

/-- Checkpoint: after the 28 start-bit samples (in `DECODING`, bit timer
started). -/
def mr73S28 : DecState :=
  { dec1000 with sync_mode := 2, sync_time := 30, vis_cnt := 8, sync_state := 3 }

/-- Checkpoint: four bit windows of `0x23` consumed. -/
def mr73S148 : DecState :=
  { mr73S28 with vis_data := 3, vis_cnt := 4 }

/-- Checkpoint: first byte complete, its seven data bits were `0x23`, so
the machine is collecting the extended byte. -/
def mr73S268 : DecState :=
  { dec1000 with
    sync_mode := 9, sync_time := 30, vis_cnt := 8, vis_extended := 1, sync_state := 3 }

/-- Checkpoint: four bit windows of `0x45` consumed. -/
def mr73S388 : DecState :=
  { mr73S268 with vis_data := 5, vis_cnt := 4 }

/-- The state after the full extended-VIS input: MR-73 (mode 21)
detected, waiting for image data. -/
def mr73Final : DecState :=
  { dec1000 with
    sync_mode := 0, sync_time := 30, vis_data := 69, vis_cnt := 0,
    vis_extended := 1, sync_state := 4, detected_mode := 21 }

/-- The state returned by the first `sstv_decoder_feed` call carrying
`mr73Input`: the mode is locked and the 320×256 image buffer has just
been allocated, but not a single image line has been decoded. -/
def mr73Fed : DecState :=
  { mr73Final with
    last_status := RxStatus.needMore
    image_buf := some ⟨320, 256, 3, 0, 0⟩
    img_dec :=
      { state := 1, sample_counter := 0, samples_per_pixel := 73293/81920,
        current_channel := 0, freq_accum := 0, freq_samples := 0 } }

/-! ### Lemmas about the 8-bit VIS emission -/

/-- Running `k + n` calls from an 8-bit state whose per-sample branch
emits the constant tone `f` yields `k` copies of `f` and then continues
from the drained state. -/
lemma run_const (c fs s f : ℕ)
    (hd : ∀ k, VISEncoder.get_frequency ⟨c, s, fs, k + 1, false⟩ = (⟨c, s, fs, k, false⟩, f)) :
    ∀ k n, VISEncoder.run ⟨c, s, fs, k, false⟩ (k + n) =
      List.replicate k f ++ VISEncoder.run ⟨c, s, fs, 0, false⟩ n := by
  intro k
  induction k with
  | zero => intro n; simp
  | succ k ih =>
      intro n
      have h1 : k + 1 + n = (k + n) + 1 := by omega
      rw [h1]
      simp only [VISEncoder.run, hd k, ih n, List.replicate_succ, List.cons_append]

/-- One full tone segment: the transition call that enters state `s'`
already returns `f`, followed by `msSamples d fs` decrementing calls. -/
lemma run_seg (c fs s d f s' : ℕ)
    (ht : VISEncoder.get_frequency ⟨c, s, fs, 0, false⟩ =
      (⟨c, s', fs, msSamples d fs, false⟩, f))
    (hd : ∀ k, VISEncoder.get_frequency ⟨c, s', fs, k + 1, false⟩ = (⟨c, s', fs, k, false⟩, f)) :
    ∀ n, VISEncoder.run ⟨c, s, fs, 0, false⟩ ((msSamples d fs + 1) + n) =
      List.replicate (msSamples d fs + 1) f ++ VISEncoder.run ⟨c, s', fs, 0, false⟩ n := by
  intro n
  have h1 : (msSamples d fs + 1) + n = (msSamples d fs + n) + 1 := by omega
  rw [h1]
  simp only [VISEncoder.run, ht, run_const c fs s' f hd, List.replicate_succ, List.cons_append]

/-- All calls from the terminal state 13 return the sentinel 0. -/
lemma run_term (c fs r : ℕ) : ∀ m, VISEncoder.run ⟨c, 13, fs, r, false⟩ m = List.replicate m 0 := by
  intro m
  induction m with
  | zero => rfl
  | succ m ih =>
      have h : VISEncoder.get_frequency ⟨c, 13, fs, r, false⟩ = (⟨c, 13, fs, r, false⟩, 0) := by
        simp [VISEncoder.get_frequency]
      simp only [VISEncoder.run, h, ih, List.replicate_succ]

/-- After the stop bit is drained (state 12, no samples remaining) every
further call returns the sentinel 0. -/
lemma run_after_stop (c fs : ℕ) :
    ∀ m, VISEncoder.run ⟨c, 12, fs, 0, false⟩ m = List.replicate m 0 := by
  intro m
  cases m with
  | zero => rfl
  | succ m =>
      have h : VISEncoder.get_frequency ⟨c, 12, fs, 0, false⟩ = (⟨c, 13, fs, 0, false⟩, 0) := by
        simp [VISEncoder.get_frequency]
      simp only [VISEncoder.run, h, run_term, List.replicate_succ]

/-- Full characterisation of the 8-bit VIS emission, for every code and
every (integer) sample rate. -/
lemma vis_run_eq (code fs m : ℕ) :
    (VISEncoder.start code fs).run (visActualLen fs + m) =
      visActualSequence code fs ++ List.replicate m 0 := by
  have harith : visActualLen fs + m =
      msSamples 300 fs + ((msSamples 10 fs + 1) + ((msSamples 300 fs + 1) +
        ((msSamples 30 fs + 1) + ((msSamples 30 fs + 1) + ((msSamples 30 fs + 1) +
        ((msSamples 30 fs + 1) + ((msSamples 30 fs + 1) + ((msSamples 30 fs + 1) +
        ((msSamples 30 fs + 1) + ((msSamples 30 fs + 1) + ((msSamples 30 fs + 1) +
        ((msSamples 30 fs + 1) + m)))))))))))) := by
    unfold visActualLen; omega
  show VISEncoder.run ⟨code % 256, 0, fs, msSamples 300 fs, false⟩ (visActualLen fs + m) = _
  rw [harith]
  rw [run_const (code % 256) fs 0 1900 (fun k => by simp [VISEncoder.get_frequency])]
  rw [run_seg (code % 256) fs 0 10 1200 1 (by simp [VISEncoder.get_frequency])
    (fun k => by simp [VISEncoder.get_frequency])]
  rw [run_seg (code % 256) fs 1 300 1900 2 (by simp [VISEncoder.get_frequency])
    (fun k => by simp [VISEncoder.get_frequency])]
  rw [run_seg (code % 256) fs 2 30 1200 3 (by simp [VISEncoder.get_frequency])
    (fun k => by simp [VISEncoder.get_frequency])]
  rw [run_seg (code % 256) fs 3 30 (bitFreq (code % 256) 0) 4
    (by simp [VISEncoder.get_frequency]) (fun k => by simp [VISEncoder.get_frequency])]
  rw [run_seg (code % 256) fs 4 30 (bitFreq (code % 256) 1) 5
    (by simp [VISEncoder.get_frequency]) (fun k => by simp [VISEncoder.get_frequency])]
  rw [run_seg (code % 256) fs 5 30 (bitFreq (code % 256) 2) 6
    (by simp [VISEncoder.get_frequency]) (fun k => by simp [VISEncoder.get_frequency])]
  rw [run_seg (code % 256) fs 6 30 (bitFreq (code % 256) 3) 7
    (by simp [VISEncoder.get_frequency]) (fun k => by simp [VISEncoder.get_frequency])]
  rw [run_seg (code % 256) fs 7 30 (bitFreq (code % 256) 4) 8
    (by simp [VISEncoder.get_frequency]) (fun k => by simp [VISEncoder.get_frequency])]
  rw [run_seg (code % 256) fs 8 30 (bitFreq (code % 256) 5) 9
    (by simp [VISEncoder.get_frequency]) (fun k => by simp [VISEncoder.get_frequency])]
  rw [run_seg (code % 256) fs 9 30 (bitFreq (code % 256) 6) 10
    (by simp [VISEncoder.get_frequency]) (fun k => by simp [VISEncoder.get_frequency])]
  rw [run_seg (code % 256) fs 10 30 (bitFreq (code % 256) 7) 11
    (by simp [VISEncoder.get_frequency]) (fun k => by simp [VISEncoder.get_frequency])]
  rw [run_seg (code % 256) fs 11 30 1200 12
    (by simp [VISEncoder.get_frequency]) (fun k => by simp [VISEncoder.get_frequency])]
  rw [run_after_stop]
  have hr : List.range 8 = [0, 1, 2, 3, 4, 5, 6, 7] := rfl
  simp [visActualSequence, visBitTones, hr, List.append_assoc]

/-- Folding a conditional counter over a list equals the starting value
plus the number of satisfying elements. -/
lemma foldl_count (p : ℕ → Bool) :
    ∀ (l : List ℕ) (a : ℕ),
      l.foldl (fun acc i => if p i then acc + 1 else acc) a = a + l.countP p := by
  intro l
  induction l with
  | nil => intro a; simp
  | cons x xs ih =>
      intro a
      by_cases hx : p x <;> (simp [List.countP_cons, hx, ih]; try omega)

lemma calculate_parity_popcount (b : ℕ) :
    calculate_parity b = if popcount8 b % 2 = 1 then 0 else 1 := by
  unfold calculate_parity popcount8
  rw [foldl_count]
  simp

/-! ### Claim theorems C1 and C3 -/

/-- Claim C1 (counterexample): at sample rate 100 Hz with VIS code 0x86,
the first 91 calls to `get_frequency` do not produce the claimed tone
sequence in which every tone is held for exactly its nominal duration's
worth of samples: at call index 31 the encoder still emits the 10 ms
break tone (1200 Hz) while the claimed sequence already has the second
leader (1900 Hz). -/
theorem c1_vis_sequence_counterexample :
    (VISEncoder.start 0x86 100).run 91 ≠ visSpecSequence 0x86 100 ∧
    ((VISEncoder.start 0x86 100).run 91).get? 31 = some 1200 ∧
    (visSpecSequence 0x86 100).get? 31 = some 1900 := by
  decide

/-- Claim C1 (amended): after `VISEncoder::start(v, fs)`, repeated calls
to `get_frequency` yield the tone ordering of the claim (1900 Hz leader,
1200 Hz break, 1900 Hz leader, 1200 Hz start bit, the 8 bits of `v`
LSB-first with 1080 Hz for a 1 bit and 1320 Hz for a 0 bit, 1200 Hz stop
bit), but each tone after the first leader is held for one sample more
than its nominal duration (the transition call already returns the new
tone); afterwards every call returns the terminal sentinel 0, and
`get_total_samples` returns the sample count of 910 ms, i.e.
`(int)(0.910*fs)`. -/
theorem c1_vis_sequence_amended (code fs m : ℕ) :
    (VISEncoder.start code fs).run (visActualLen fs + m) =
      visActualSequence code fs ++ List.replicate m 0 ∧
    (VISEncoder.start code fs).get_total_samples = msSamples 910 fs :=
  ⟨vis_run_eq code fs m, rfl⟩

/-- Claim C3 (counterexample): for the byte 1 the parity bit the VIS
encoder computes is 0, not `popcount(1) & 1 = 1`: `calculate_parity` is
odd parity, not the natural (even) parity asserted by the claim. -/
theorem c3_parity_counterexample :
    calculate_parity 1 ≠ popcount8 1 % 2 ∧
    calculate_parity 1 = 0 ∧ popcount8 1 % 2 = 1 := by
  decide

/-- Claim C3 (amended): for every byte `b`,
`VISEncoder::calculate_parity(b)` equals `1 - (popcount(b) & 1)` — odd
parity: the parity bit is chosen so that the total number of 1 bits
(data plus parity) is odd, the complement of the XOR of the data bits. -/
theorem c3_parity_amended (b : ℕ) :
    calculate_parity b = 1 - popcount8 b % 2 ∧
    (popcount8 b + calculate_parity b) % 2 = 1 := by
  rw [calculate_parity_popcount]
  rcases Nat.mod_two_eq_zero_or_one (popcount8 b) with h | h <;> (simp [h]; try omega)

/-! ### The concrete extended-VIS run at 1000 Hz -/

set_option maxRecDepth 40000 in
unseal Rat.add Rat.mul Rat.inv Rat.sub Rat.ofScientific in
lemma mr73_create : sstv_decoder_create 1000 = some dec1000 := by decide

set_option maxRecDepth 40000 in
unseal Rat.add Rat.mul Rat.inv Rat.sub Rat.ofScientific in
lemma mr73_chunk0 :
    (List.replicate 13 predTone).foldl decoder_process_sample dec1000 =
      { dec1000 with sync_mode := 1, sync_time := 15, sync_state := 1 } := by decide

set_option maxRecDepth 40000 in
unseal Rat.add Rat.mul Rat.inv Rat.sub Rat.ofScientific in
lemma mr73_chunk1 :
    (List.replicate 15 predTone).foldl decoder_process_sample
      { dec1000 with sync_mode := 1, sync_time := 15, sync_state := 1 } = mr73S28 := by decide

set_option maxRecDepth 40000 in
unseal Rat.add Rat.mul Rat.inv Rat.sub Rat.ofScientific in
lemma mr73_chunk2 :
    ((byteInput 0x23).take 120).foldl decoder_process_sample mr73S28 = mr73S148 := by decide

set_option maxRecDepth 40000 in
unseal Rat.add Rat.mul Rat.inv Rat.sub Rat.ofScientific in
lemma mr73_chunk3 :
    ((byteInput 0x23).drop 120).foldl decoder_process_sample mr73S148 = mr73S268 := by decide

set_option maxRecDepth 40000 in
unseal Rat.add Rat.mul Rat.inv Rat.sub Rat.ofScientific in
lemma mr73_chunk4 :
    ((byteInput 0x45).take 120).foldl decoder_process_sample mr73S268 = mr73S388 := by decide

set_option maxRecDepth 40000 in
unseal Rat.add Rat.mul Rat.inv Rat.sub Rat.ofScientific in
lemma mr73_chunk5 :
    ((byteInput 0x45).drop 120).foldl decoder_process_sample mr73S388 = mr73Final := by decide

/-- The full 508-sample run: from the fresh 1000 Hz decoder state the
extended-VIS input locks MR-73. -/
lemma mr73_run :
    mr73Input.foldl decoder_process_sample dec1000 = mr73Final := by
  have h23 := List.take_append_drop 120 (byteInput 0x23)
  have h45 := List.take_append_drop 120 (byteInput 0x45)
  unfold mr73Input
  rw [← h23, ← h45]
  simp only [List.foldl_append]
  rw [mr73_chunk0, mr73_chunk1, mr73_chunk2, mr73_chunk3, mr73_chunk4, mr73_chunk5]

lemma mr73Input_ne_nil : mr73Input.length ≠ 0 := by
  simp [mr73Input]

set_option maxRecDepth 40000 in
unseal Rat.add Rat.mul Rat.inv Rat.sub Rat.ofScientific in
lemma mr73_feed :
    sstv_decoder_feed (some dec1000) (some mr73Input) true =
      (some mr73Fed, RxStatus.needMore) := by
  simp only [sstv_decoder_feed]
  rw [if_neg mr73Input_ne_nil]
  simp only [mr73_run]
  decide

/-! ### The sync/VIS state machine -/

/-- `decoder_process_image_sample` only touches the image buffer and the
image-decoder accumulators; every sync/VIS field is untouched. -/
lemma image_sample_sync_fields (d : DecState) (a b : ℚ) :
    (decoder_process_image_sample d a b).sync_mode = d.sync_mode ∧
    (decoder_process_image_sample d a b).sync_time = d.sync_time ∧
    (decoder_process_image_sample d a b).sync_state = d.sync_state ∧
    (decoder_process_image_sample d a b).vis_data = d.vis_data ∧
    (decoder_process_image_sample d a b).vis_cnt = d.vis_cnt ∧
    (decoder_process_image_sample d a b).vis_extended = d.vis_extended ∧
    (decoder_process_image_sample d a b).detected_mode = d.detected_mode ∧
    (decoder_process_image_sample d a b).s_lvl = d.s_lvl ∧
    (decoder_process_image_sample d a b).s_lvl2 = d.s_lvl2 ∧
    (decoder_process_image_sample d a b).sample_rate = d.sample_rate := by
  unfold decoder_process_image_sample
  cases d.image_buf
  case none => simp
  case some => simp; split_ifs <;> simp

lemma case0_image_buf (d : DecState) (x : ToneEnergies) :
    (decoder_sync_case0 d x).image_buf = d.image_buf := by
  unfold decoder_sync_case0; dsimp only; split_ifs <;> rfl

lemma case1_image_buf (d : DecState) (x : ToneEnergies) :
    (decoder_sync_case1 d x).image_buf = d.image_buf := by
  unfold decoder_sync_case1; dsimp only; split_ifs <;> rfl

lemma vis_complete_image_buf (d : DecState) :
    (decoder_vis_complete d).image_buf = d.image_buf := by
  unfold decoder_vis_complete; dsimp only; split_ifs <;> rfl

lemma case29_image_buf (d : DecState) (x : ToneEnergies) :
    (decoder_sync_case29 d x).image_buf = d.image_buf := by
  unfold decoder_sync_case29
  dsimp only
  split_ifs <;> first | rfl | rw [vis_complete_image_buf]

/-- The sync state machine never touches the image buffer. -/
lemma fsm_image_buf (d : DecState) (x : ToneEnergies) :
    (decoder_sync_fsm d x).image_buf = d.image_buf := by
  unfold decoder_sync_fsm
  split_ifs <;>
    first
      | rfl
      | rw [case0_image_buf]
      | rw [case1_image_buf]
      | rw [case29_image_buf]

/-- Processing one sample with no allocated buffer leaves the buffer
unallocated. -/
lemma step_buf_none (d : DecState) (x : ToneEnergies)
    (h : d.image_buf = none) :
    (decoder_process_sample d x).image_buf = none := by
  unfold decoder_process_sample
  rw [if_neg (by simp [h]), fsm_image_buf]
  exact h

/-- Feeding any list of samples with no allocated buffer leaves the
buffer unallocated. -/
lemma foldl_buf_none (l : List ToneEnergies) (d : DecState)
    (h : d.image_buf = none) :
    (l.foldl decoder_process_sample d).image_buf = none := by
  induction l generalizing d with
  | nil => exact h
  | cons a t ih => exact ih _ (step_buf_none d a h)

/-- Completing the eighth bit of a first VIS byte whose seven data bits
are `0x23` (i.e. `vis_data = 35` with the parity bit still to come)
switches the machine to the extended-byte state 9 without looking up any
mode. -/
lemma sync_fsm_byte23 (d : DecState) (x : ToneEnergies)
    (h2 : d.sync_mode = 2) (ht : d.sync_time = 1) (hc : d.vis_cnt = 1)
    (hv : d.vis_data = 35)
    (hx : ¬ (x.d11 < x.d19 ∧ x.d13 < x.d19 ∧ |x.d11 - x.d13| < d.s_lvl2)) :
    (decoder_sync_fsm d x).sync_mode = 9 ∧
    (decoder_sync_fsm d x).detected_mode = d.detected_mode ∧
    (decoder_sync_fsm d x).vis_extended = 1 ∧
    (decoder_sync_fsm d x).vis_cnt = 8 ∧
    (decoder_sync_fsm d x).vis_data = 0 := by
  unfold decoder_sync_fsm decoder_sync_case29 decoder_vis_complete
  by_cases hb : x.d11 > x.d13 <;>
    simp [h2, ht, hc, hv, hx, hb]

/-- Claim C2: when the VIS state machine completes a first 8-bit byte
whose seven data bits equal `0x23`, it locks no standard mode from that
byte: it enters the extended-byte state (sync_mode 9, `vis_extended`
set), leaving `detected_mode` unchanged, and resolves the mode through
the extended table only.  Concretely, the clean extended-VIS input whose
bytes decode to `0x23` then `0x45` yields detected mode MR-73; the
shared code byte `0x86` maps to B/W 12 in the standard table and to
ML240 in the extended table, and `0x23` itself never resolves to a
standard mode. -/
theorem c2_extended_vis_path
    (d : DecState) (x : ToneEnergies)
    (h2 : d.sync_mode = 2) (ht : d.sync_time = 1) (hc : d.vis_cnt = 1)
    (hv : d.vis_data = 35)
    (hx : ¬ (x.d11 < x.d19 ∧ x.d13 < x.d19 ∧ |x.d11 - x.d13| < d.s_lvl2)) :
    ((decoder_process_sample d x).sync_mode = 9 ∧
     (decoder_process_sample d x).detected_mode = d.detected_mode ∧
     (decoder_process_sample d x).vis_extended = 1 ∧
     (decoder_process_sample d x).vis_cnt = 8 ∧
     (decoder_process_sample d x).vis_data = 0) ∧
    (mr73Input.foldl decoder_process_sample dec1000).detected_mode = SSTV_MR73 ∧
    vis_code_to_mode 0x45 true = SSTV_MR73 ∧
    vis_code_to_mode 0x86 false = SSTV_BW12 ∧
    vis_code_to_mode 0x86 true = SSTV_ML240 ∧
    vis_code_to_mode 0x23 false = SSTV_MODE_COUNT := by
  refine ⟨?_, ?_, by decide, by decide, by decide, by decide⟩
  · unfold decoder_process_sample
    by_cases hg : d.sync_state = 4 ∧ d.image_buf.isSome ∧ d.img_dec.state ≠ 8
    · rw [if_pos hg]
      obtain ⟨f1, f2, -, -, f5, -, f7, -, f9, -⟩ := image_sample_sync_fields d x.d11 x.d13
      obtain ⟨g1, g2, g3, g4, g5⟩ :=
        sync_fsm_byte23 (decoder_process_image_sample d x.d11 x.d13) x
          (f1.trans h2) (f2.trans ht) (f5.trans hc)
          (by
            have h4 := (image_sample_sync_fields d x.d11 x.d13).2.2.2.1
            exact h4.trans hv)
          (by rw [f9]; exact hx)
      exact ⟨g1, g2.trans f7, g3, g4, g5⟩
    · rw [if_neg hg]
      exact sync_fsm_byte23 d x h2 ht hc hv hx
  · rw [mr73_run]
    decide

/-- Witness for C2: the state one bit before completing a first byte
whose data bits are `0x23`, fed the space tone. -/
theorem c2_extended_vis_path_witness :
    ({ mr73S28 with sync_time := 1, vis_cnt := 1, vis_data := 35 } : DecState).sync_mode = 2 ∧
    ((decoder_process_sample { mr73S28 with sync_time := 1, vis_cnt := 1, vis_data := 35 } bit0Tone).sync_mode = 9 ∧
     (decoder_process_sample { mr73S28 with sync_time := 1, vis_cnt := 1, vis_data := 35 } bit0Tone).detected_mode =
       ({ mr73S28 with sync_time := 1, vis_cnt := 1, vis_data := 35 } : DecState).detected_mode ∧
     (decoder_process_sample { mr73S28 with sync_time := 1, vis_cnt := 1, vis_data := 35 } bit0Tone).vis_extended = 1 ∧
     (decoder_process_sample { mr73S28 with sync_time := 1, vis_cnt := 1, vis_data := 35 } bit0Tone).vis_cnt = 8 ∧
     (decoder_process_sample { mr73S28 with sync_time := 1, vis_cnt := 1, vis_data := 35 } bit0Tone).vis_data = 0) ∧
    (mr73Input.foldl decoder_process_sample dec1000).detected_mode = SSTV_MR73 :=
  have h := c2_extended_vis_path { mr73S28 with sync_time := 1, vis_cnt := 1, vis_data := 35 }
    bit0Tone (by decide) (by decide) (by decide) (by decide) (by decide)
  ⟨by decide, h.1, h.2.1⟩

/-! ### Claim C5: availability of `get_image` -/

/-- Claim C5 (counterexample): a single `feed` call carrying the clean
extended-VIS input returns NEED_MORE — so no feed call has ever returned
IMAGE_READY — yet `sstv_decoder_get_image` already succeeds, exposing
the freshly allocated, entirely undecoded 320×256 buffer (current
decode position still at line 0, column 0). -/
theorem c5_get_image_counterexample :
    sstv_decoder_create 1000 = some dec1000 ∧
    sstv_decoder_feed (some dec1000) (some mr73Input) true =
      (some mr73Fed, RxStatus.needMore) ∧
    sstv_decoder_get_image (some mr73Fed) = some ⟨320, 256, 960⟩ ∧
    mr73Fed.image_buf = some ⟨320, 256, 3, 0, 0⟩ :=
  ⟨mr73_create, mr73_feed, rfl, rfl⟩

/-- Claim C5 (amended): `sstv_decoder_get_image` fails exactly while the
image buffer is unallocated: it fails on a decoder whose buffer is
`NULL`, and it keeps failing across any `feed` call after which no VIS
mode is locked (and such a call never reports IMAGE_READY).  The buffer
is however allocated as soon as a mode is detected — before any image
line is decoded — so `get_image` can succeed while every `feed` call so
far returned NEED_MORE. -/
theorem c5_get_image_amended (d : DecState) (l : List ToneEnergies)
    (ok : Bool) (d' : Option DecState) (st : RxStatus)
    (hbuf : d.image_buf = none)
    (hfeed : sstv_decoder_feed (some d) (some l) ok = (d', st))
    (hnv : decoder_check_vis_ready (l.foldl decoder_process_sample d) = false) :
    sstv_decoder_get_image (some d) = none ∧
    sstv_decoder_get_image d' = none ∧
    st ≠ RxStatus.imageReady := by
  have hfold : (l.foldl decoder_process_sample d).image_buf = none :=
    foldl_buf_none l d hbuf
  simp only [sstv_decoder_feed] at hfeed
  by_cases hl : l.length = 0
  · rw [if_pos hl] at hfeed
    cases hfeed
    exact ⟨by simp [sstv_decoder_get_image, hbuf],
           by simp [sstv_decoder_get_image, hbuf], by simp⟩
  · rw [if_neg hl, if_neg (by simp [hnv])] at hfeed
    cases hfeed
    refine ⟨by simp [sstv_decoder_get_image, hbuf], ?_, by simp⟩
    simp [sstv_decoder_get_image, hfold]

set_option maxRecDepth 40000 in
unseal Rat.add Rat.mul Rat.inv Rat.sub Rat.ofScientific in
theorem c5_get_image_amended_witness :
    sstv_decoder_get_image (some dec1000) = none ∧
    sstv_decoder_get_image
      (sstv_decoder_feed (some dec1000) (some [quietTone]) true).1 = none ∧
    (sstv_decoder_feed (some dec1000) (some [quietTone]) true).2 ≠
      RxStatus.imageReady :=
  c5_get_image_amended dec1000 [quietTone] true _ _ (by decide) rfl (by decide)

/-! ### Claim C6: what `sstv_decoder_reset` restores -/

set_option maxRecDepth 40000 in
unseal Rat.add Rat.mul Rat.inv Rat.sub Rat.ofScientific in
/-- Claim C6 (counterexample): after the extended-VIS feed,
`sstv_decoder_reset` does not return the decoder to its
post-construction state: `detected_mode` stays MR-73 (21) instead of
SSTV_MODE_COUNT (43), so the reset state differs from the created one,
and the subsequent behaviour diverges observably — one quiet sample fed
to the reset decoder reallocates an image buffer (so `get_image`
succeeds), while the same sample fed to a fresh decoder leaves
`get_image` failing. -/
theorem c6_reset_counterexample :
    sstv_decoder_create 1000 = some dec1000 ∧
    sstv_decoder_feed (some dec1000) (some mr73Input) true =
      (some mr73Fed, RxStatus.needMore) ∧
    (sstv_decoder_reset mr73Fed).detected_mode = 21 ∧
    dec1000.detected_mode = SSTV_MODE_COUNT ∧
    sstv_decoder_reset mr73Fed ≠ dec1000 ∧
    sstv_decoder_get_image
      (sstv_decoder_feed (some (sstv_decoder_reset mr73Fed))
        (some [quietTone]) true).1 = some ⟨320, 256, 960⟩ ∧
    sstv_decoder_get_image
      (sstv_decoder_feed (some dec1000) (some [quietTone]) true).1 = none := by
  refine ⟨mr73_create, mr73_feed, rfl, rfl, ?_, ?_, ?_⟩
  · decide
  · decide
  · decide

/-- Claim C6 (amended): `sstv_decoder_reset` clears the sync/VIS state
machine, the AGC accumulators, the image buffer and assembler, the mode
hint and the last status, and preserves the sample rate and the sense
levels — but it does NOT clear `detected_mode`, so the reset decoder is
not in the post-construction state once a mode was ever detected. -/
theorem c6_reset_amended (d : DecState) :
    (sstv_decoder_reset d).detected_mode = d.detected_mode ∧
    (sstv_decoder_reset d).sample_rate = d.sample_rate ∧
    (sstv_decoder_reset d).vis_enabled = d.vis_enabled ∧
    (sstv_decoder_reset d).sense_level = d.sense_level ∧
    (sstv_decoder_reset d).s_lvl = d.s_lvl ∧
    (sstv_decoder_reset d).s_lvl2 = d.s_lvl2 ∧
    (sstv_decoder_reset d).s_lvl3 = d.s_lvl3 ∧
    (sstv_decoder_reset d).vis_parity_pending = d.vis_parity_pending ∧
    (sstv_decoder_reset d).sync_state = 0 ∧
    (sstv_decoder_reset d).sync_mode = 0 ∧
    (sstv_decoder_reset d).sync_time = 0 ∧
    (sstv_decoder_reset d).leader_drop_count = 0 ∧
    (sstv_decoder_reset d).vis_data = 0 ∧
    (sstv_decoder_reset d).vis_cnt = 0 ∧
    (sstv_decoder_reset d).vis_extended = 0 ∧
    (sstv_decoder_reset d).agc_peak_level = 0 ∧
    (sstv_decoder_reset d).agc_sample_count = 0 ∧
    (sstv_decoder_reset d).image_buf = none ∧
    (sstv_decoder_reset d).img_dec = ⟨0, 0, 1, 0, 0, 0⟩ ∧
    (sstv_decoder_reset d).mode_hint = SSTV_MODE_COUNT ∧
    (sstv_decoder_reset d).last_status = RxStatus.needMore :=
  ⟨rfl, rfl, rfl, rfl, rfl, rfl, rfl, rfl, rfl, rfl, rfl,
   rfl, rfl, rfl, rfl, rfl, rfl, rfl, rfl, rfl, rfl⟩

/-! ### Claim C9: entering start-bit validation -/

/-- The four possible outcomes of one IDLE (`case 0`) step. -/
lemma case0_cases (d : DecState) (x : ToneEnergies) :
    decoder_sync_case0 d x = { d with sync_time := 0 } ∨
    (d.sync_time = 0 ∧
      decoder_sync_case0 d x = { d with sync_time := ⌊12 * d.sample_rate / 1000⌋ }) ∨
    (d.sync_time ≠ 0 ∧ d.sync_time - 1 ≠ 0 ∧
      decoder_sync_case0 d x = { d with sync_time := d.sync_time - 1 }) ∨
    (d.sync_time ≠ 0 ∧ d.sync_time - 1 = 0 ∧
      decoder_sync_case0 d x =
        { d with
          sync_mode := 1
          sync_time := ⌊15 * d.sample_rate / 1000⌋
          sync_state := 1 }) := by
  unfold decoder_sync_case0
  dsimp only
  split_ifs with h1 h2 h3
  · exact Or.inr (Or.inl ⟨h2, rfl⟩)
  · exact Or.inr (Or.inr (Or.inr ⟨h2, h3, rfl⟩))
  · exact Or.inr (Or.inr (Or.inl ⟨h2, h3, rfl⟩))
  · exact Or.inl rfl

/-- In IDLE, one `decoder_process_sample` step is one `case 0` step of a
state with the same sync fields (the image branch never changes them). -/
lemma mode0_process (d : DecState) (x : ToneEnergies) (h0 : d.sync_mode = 0) :
    ∃ e : DecState, decoder_process_sample d x = decoder_sync_case0 e x ∧
      e.sync_mode = 0 ∧ e.sync_time = d.sync_time ∧
      e.sample_rate = d.sample_rate ∧ e.sync_state = d.sync_state := by
  unfold decoder_process_sample
  by_cases hg : d.sync_state = 4 ∧ d.image_buf.isSome = true ∧ d.img_dec.state ≠ 8
  · rw [if_pos hg]
    obtain ⟨f1, f2, f3, -, -, -, -, -, -, f10⟩ :=
      image_sample_sync_fields d x.d11 x.d13
    refine ⟨decoder_process_image_sample d x.d11 x.d13, ?_,
      f1.trans h0, f2, f10, f3⟩
    simp [decoder_sync_fsm, f1, h0]
  · rw [if_neg hg]
    exact ⟨d, by simp [decoder_sync_fsm, h0], h0, rfl, rfl, rfl⟩

/-- Safety invariant of the IDLE accumulator: as long as the remaining
input is shorter than the budget the timer still demands, the machine
stays in IDLE with its sync flag untouched. -/
lemma idle_fold_safe (l : List ToneEnergies) :
    ∀ d : DecState, d.sync_mode = 0 →
      ((d.sync_time = 0 ∧ (l.length : ℤ) ≤ ⌊12 * d.sample_rate / 1000⌋) ∨
       (0 < d.sync_time ∧ d.sync_time ≤ ⌊12 * d.sample_rate / 1000⌋ ∧
          (l.length : ℤ) < d.sync_time)) →
      (l.foldl decoder_process_sample d).sync_mode = 0 ∧
      (l.foldl decoder_process_sample d).sync_state = d.sync_state := by
  induction l with
  | nil => intro d h0 _; exact ⟨h0, rfl⟩
  | cons a t ih =>
      intro d h0 hinv
      obtain ⟨e, he, em, et, er, es⟩ := mode0_process d a h0
      simp only [List.foldl_cons, he]
      have hlen : ((a :: t).length : ℤ) = (t.length : ℤ) + 1 := by
        simp
      rcases case0_cases e a with hc | ⟨hz, hc⟩ | ⟨hnz, hnz1, hc⟩ | ⟨hnz, hz1, hc⟩
      · rw [hc]
        have := ih { e with sync_time := 0 } em
          (Or.inl ⟨rfl, by
            simp only [er]
            rcases hinv with ⟨-, hb⟩ | ⟨-, hb, hb2⟩ <;> omega⟩)
        simpa [es] using this
      · rw [hc]
        have hN : (t.length : ℤ) + 1 ≤ ⌊12 * d.sample_rate / 1000⌋ := by
          rcases hinv with ⟨-, hb⟩ | ⟨hp, -, -⟩
          · omega
          · rw [et] at hz; omega
        have := ih { e with sync_time := ⌊12 * e.sample_rate / 1000⌋ } em
          (Or.inr ⟨by simp only [er]; omega, le_refl _, by
            simp only [er]; omega⟩)
        simpa [es] using this
      · rw [hc]
        have hb : 0 < d.sync_time ∧ d.sync_time ≤ ⌊12 * d.sample_rate / 1000⌋ ∧
            (t.length : ℤ) + 1 < d.sync_time := by
          rcases hinv with ⟨hz0, -⟩ | ⟨h1', h2', h3'⟩
          · rw [et] at hnz; exact absurd hz0 hnz
          · exact ⟨h1', h2', by omega⟩
        have := ih { e with sync_time := e.sync_time - 1 } em
          (Or.inr ⟨by simp only [et]; omega, by simp only [er, et]; omega,
            by simp only [et]; omega⟩)
        simpa [es] using this
      · exfalso
        rcases hinv with ⟨hz0, -⟩ | ⟨-, -, h3'⟩
        · rw [et] at hnz; exact hnz hz0
        · rw [et] at hz1; omega

set_option maxRecDepth 40000 in
unseal Rat.add Rat.mul Rat.inv Rat.sub Rat.ofScientific in
/-- Claim C9 (counterexample): at 1000 Hz the 12 ms window is 12
samples, and after 27 start-bit samples and one quiet sample the decoder
is back in IDLE (`sync_mode 0`) — but with the stale timer value 1 —
so one single further sample satisfying the start-bit predicate (1 ms of
tone, far less than 12 ms) sends it straight into VALIDATING
(`sync_mode 1`). -/
theorem c9_validation_counterexample :
    ⌊12 * dec1000.sample_rate / 1000⌋ = 12 ∧
    (c9Prefix.foldl decoder_process_sample dec1000).sync_mode = 0 ∧
    (c9Prefix.foldl decoder_process_sample dec1000).sync_time = 1 ∧
    ((c9Prefix ++ [predTone]).foldl decoder_process_sample dec1000).sync_mode
      = 1 := by
  refine ⟨by decide, by decide, by decide, by decide⟩

/-- Claim C9 (amended): from IDLE with a cleared accumulator
(`sync_time = 0` — in particular any freshly created or reset decoder),
the machine stays in IDLE, never entering VALIDATING, over any input
spanning at most 12 ms (at most `⌊12·fs/1000⌋` samples); hence 1200 Hz
sustained for only 9 ms never triggers validation.  The 12 ms guarantee
of the claim holds only for a cleared accumulator: a stale `sync_time`
left by an aborted validation lets a single predicate sample re-enter
VALIDATING. -/
theorem c9_validation_amended (d : DecState) (l : List ToneEnergies)
    (h0 : d.sync_mode = 0) (ht : d.sync_time = 0)
    (hlen : (l.length : ℚ) * 1000 ≤ 12 * d.sample_rate) :
    (l.foldl decoder_process_sample d).sync_mode = 0 ∧
    (l.foldl decoder_process_sample d).sync_state = d.sync_state := by
  have hN : (l.length : ℤ) ≤ ⌊12 * d.sample_rate / 1000⌋ := by
    rw [Int.le_floor]
    push_cast
    linarith
  exact idle_fold_safe l d h0 (Or.inl ⟨ht, hN⟩)

set_option maxRecDepth 40000 in
unseal Rat.add Rat.mul Rat.inv Rat.sub Rat.ofScientific in
theorem c9_validation_amended_witness :
    ((List.replicate 9 predTone).foldl decoder_process_sample dec1000).sync_mode
        = 0 ∧
    ((List.replicate 9 predTone).foldl decoder_process_sample
        dec1000).sync_state = dec1000.sync_state :=
  c9_validation_amended dec1000 (List.replicate 9 predTone) rfl rfl
    (by norm_num [dec1000])

/-! ### Claim C10: the statuses `sstv_decoder_feed` can return -/

/-- Claim C10: every `sstv_decoder_feed` call returns exactly one of
SSTV_RX_ERROR, SSTV_RX_IMAGE_READY or SSTV_RX_NEED_MORE — never
SSTV_RX_OK, although the public status enum defines it — and it returns
SSTV_RX_ERROR precisely for a null decoder, a null sample buffer, a
zero sample count, or an image-buffer allocation failure on VIS lock. -/
theorem c10_feed_status (dec : Option DecState)
    (samples : Option (List ToneEnergies)) (ok : Bool) :
    ((sstv_decoder_feed dec samples ok).2 = RxStatus.error ∨
     (sstv_decoder_feed dec samples ok).2 = RxStatus.imageReady ∨
     (sstv_decoder_feed dec samples ok).2 = RxStatus.needMore) ∧
    (sstv_decoder_feed dec samples ok).2 ≠ RxStatus.ok ∧
    ((sstv_decoder_feed dec samples ok).2 = RxStatus.error ↔
      dec = none ∨ samples = none ∨ samples = some [] ∨
      (∃ d l, dec = some d ∧ samples = some l ∧ l ≠ [] ∧
        decoder_check_vis_ready (l.foldl decoder_process_sample d) = true ∧
        (l.foldl decoder_process_sample d).image_buf = none ∧
        decoder_allocate_image_buffer (l.foldl decoder_process_sample d)
          (l.foldl decoder_process_sample d).detected_mode ok = none)) := by
  rcases dec with _ | d
  · simp [sstv_decoder_feed]
  rcases samples with _ | l
  · simp [sstv_decoder_feed]
  by_cases hl : l.length = 0
  · have hnil : l = [] := List.length_eq_zero.mp hl
    subst hnil
    simp [sstv_decoder_feed]
  · simp only [sstv_decoder_feed, if_neg hl]
    have hne : l ≠ [] := fun h => hl (by simp [h])
    by_cases hv : decoder_check_vis_ready (l.foldl decoder_process_sample d)
      = true
    · rw [if_pos hv]
      split
      next hm =>
        have hbn : (l.foldl decoder_process_sample d).image_buf = none ∧
            decoder_allocate_image_buffer (l.foldl decoder_process_sample d)
              (l.foldl decoder_process_sample d).detected_mode ok = none := by
          by_cases hb : (l.foldl decoder_process_sample d).image_buf.isNone
            = true
          · exact ⟨Option.isNone_iff_eq_none.mp hb, by rwa [if_pos hb] at hm⟩
          · rw [if_neg hb] at hm; cases hm
        exact ⟨Or.inl rfl, by simp, iff_of_true rfl
          (Or.inr (Or.inr (Or.inr ⟨d, l, rfl, rfl, hne, hv, hbn.1, hbn.2⟩)))⟩
      next d' hm =>
        by_cases h8 : d'.img_dec.state = 8
        · rw [if_pos h8]
          refine ⟨Or.inr (Or.inl rfl), by simp, iff_of_false (by simp) ?_⟩
          rintro (h | h | h | ⟨d0, l0, hd0, hl0, -, -, hbuf0, halloc0⟩)
          · exact Option.noConfusion h
          · exact Option.noConfusion h
          · exact hne (by injection h)
          · obtain rfl : d0 = d := (Option.some.inj hd0).symm
            obtain rfl : l0 = l := (Option.some.inj hl0).symm
            rw [if_pos (Option.isNone_iff_eq_none.mpr hbuf0), halloc0] at hm
            cases hm
        · rw [if_neg h8]
          refine ⟨Or.inr (Or.inr rfl), by simp, iff_of_false (by simp) ?_⟩
          rintro (h | h | h | ⟨d0, l0, hd0, hl0, -, -, hbuf0, halloc0⟩)
          · exact Option.noConfusion h
          · exact Option.noConfusion h
          · exact hne (by injection h)
          · obtain rfl : d0 = d := (Option.some.inj hd0).symm
            obtain rfl : l0 = l := (Option.some.inj hl0).symm
            rw [if_pos (Option.isNone_iff_eq_none.mpr hbuf0), halloc0] at hm
            cases hm
    · rw [if_neg hv]
      refine ⟨Or.inr (Or.inr rfl), by simp, iff_of_false (by simp) ?_⟩
      rintro (h | h | h | ⟨d0, l0, hd0, hl0, -, hv0, -⟩)
      · exact Option.noConfusion h
      · exact Option.noConfusion h
      · exact hne (by injection h)
      · obtain rfl : d0 = d := (Option.some.inj hd0).symm
        obtain rfl : l0 = l := (Option.some.inj hl0).symm
        exact hv hv0

/-! ### Claim C4: TX output amplitude -/

/-- Every emitted sample token denotes a value in `[-1, 1]`: the literal
`0.0` for a non-positive segment frequency, a sine-table entry
otherwise. -/
lemma tokenSample_bounded (n : ℤ) (t : SampleTok) : |tokenSample n t| ≤ 1 := by
  cases t with
  | none => simp [tokenSample]
  | some i =>
      simp only [tokenSample, sineTable]
      exact abs_le.mpr ⟨Real.neg_one_le_sin _, Real.sin_le_one _⟩

/-- The two wrap-around `while` loops of `VCO::process` leave the phase
in `[0, table_size)` when the table size is positive. -/
lemma wrapPhase_bounds (p : ℚ) (n : ℤ) (hn : 0 < n) :
    0 ≤ wrapPhase p n ∧ wrapPhase p n < (n : ℚ) := by
  unfold wrapPhase
  have hnq : (0 : ℚ) < (n : ℚ) := by exact_mod_cast hn
  have hpn : (n : ℚ) * (p / (n : ℚ)) = p := by field_simp
  constructor
  · nlinarith [Int.floor_le (p / (n : ℚ))]
  · nlinarith [Int.lt_floor_add_one (p / (n : ℚ))]

/-- The table index computed by `VCO::process` is a valid index of the
`table_size`-entry sine table. -/
lemma processStep_index_range (v : VCO) (input : ℚ) (hn : 0 < v.table_size) :
    0 ≤ (v.processStep input).2 ∧ (v.processStep input).2 < v.table_size := by
  obtain ⟨h1, h2⟩ :=
    wrapPhase_bounds (v.phase + v.c2 + v.c1 * input) v.table_size hn
  unfold VCO.processStep
  dsimp only
  exact ⟨Int.floor_nonneg.mpr h1, Int.floor_lt.mpr (by exact_mod_cast h2)⟩

/-- Claim C4: every sample of a completed `sstv_encoder_generate` call
lies in `[-1, 1]` — for every mode environment, fuel, and encoder state,
hence for every mode, image, and sample rate — and `VCO::process`
returns an entry of its sine table: for a positive table size the
computed index is in range, and the returned value is bounded by 1 in
absolute value for any control input. -/
theorem c4_output_bounded (env : GenEnv) (fuel : ℕ) (e : EncState)
    (v : VCO) (input : ℚ) (hn : 0 < v.table_size) :
    (∀ y ∈ generateSamples env fuel e, |y| ≤ 1) ∧
    (VCO.process v input).2 = sineTable v.table_size ((v.processStep input).2) ∧
    (0 ≤ (v.processStep input).2 ∧ (v.processStep input).2 < v.table_size) ∧
    |(VCO.process v input).2| ≤ 1 := by
  refine ⟨?_, rfl, processStep_index_range v input hn, ?_⟩
  · intro y hy
    simp only [generateSamples, List.mem_map] at hy
    obtain ⟨t, -, rfl⟩ := hy
    exact tokenSample_bounded _ t
  · exact tokenSample_bounded v.table_size (some ((v.processStep input).2))

set_option maxRecDepth 40000 in
unseal Rat.add Rat.mul Rat.inv Rat.sub Rat.ofScientific in
theorem c4_output_bounded_witness :
    (∀ y ∈ generateSamples bw12Env 0 bw12e0, |y| ≤ 1) ∧
    (VCO.process bw12e0.vco 0).2 =
      sineTable bw12e0.vco.table_size ((bw12e0.vco.processStep 0).2) ∧
    (0 ≤ (bw12e0.vco.processStep 0).2 ∧
      (bw12e0.vco.processStep 0).2 < bw12e0.vco.table_size) ∧
    |(VCO.process bw12e0.vco 0).2| ≤ 1 :=
  c4_output_bounded bw12Env 0 bw12e0 bw12e0.vco 0 (by decide)

/-! ### Claim C7: generate / reset / generate -/

/-- Claim C7 (the mechanism of the divergence): `sstv_encoder_reset`
carries the VCO — in particular its phase accumulator — over into the
next run instead of re-zeroing it, while resetting every other
streaming field; consequently a post-reset `generate` run behaves
exactly like a run of a fresh encoder state that starts from the
carried-over VCO rather than from the zero phase a newly created
encoder has. -/
theorem c7_reset_vco_carryover (e : EncState) (fuel : ℕ)
    (hv : e.vis_enabled = true) (hi : e.hasImage = true) :
    (sstv_encoder_reset e).vco = e.vco ∧
    sstv_encoder_generate bw12Env fuel (sstv_encoder_reset e) =
      sstv_encoder_generate bw12Env fuel (freshLike e) := by
  refine ⟨rfl, ?_⟩
  unfold sstv_encoder_generate
  simp [sstv_encoder_reset, freshLike, bw12Env, bw12_init_vis, hv, hi]

theorem c7_reset_vco_carryover_witness :
    (sstv_encoder_reset bw12e0).vco = bw12e0.vco ∧
    sstv_encoder_generate bw12Env 0 (sstv_encoder_reset bw12e0) =
      sstv_encoder_generate bw12Env 0 (freshLike bw12e0) :=
  c7_reset_vco_carryover bw12e0 0 rfl rfl

/-! ### Claim C8: creation with a non-positive sample rate -/

/-- Claim C8 (counterexample): `sstv_encoder_create` performs no
sample-rate check at all — creating a B/W 12 encoder with sample rate 0
succeeds, storing the rate 0 — while `sstv_decoder_create(0)` does
return null. -/
theorem c8_create_counterexample :
    (sstv_encoder_create SSTV_BW12 0).isSome = true ∧
    (sstv_encoder_create SSTV_BW12 0).map EncState.sample_rate = some 0 ∧
    sstv_decoder_create 0 = none := by
  refine ⟨rfl, rfl, ?_⟩
  simp [sstv_decoder_create]

/-- Claim C8 (amended): `sstv_decoder_create` returns null for every
sample rate `fs ≤ 0`, but `sstv_encoder_create` has no sample-rate
check: it rejects exactly the out-of-range modes and succeeds for every
in-range mode at every sample rate, including 0. -/
theorem c8_create_amended (fs : ℚ) (mode : ℤ) (n : ℕ)
    (hfs : fs ≤ 0) (hm : 0 ≤ mode ∧ mode < SSTV_MODE_COUNT) :
    sstv_decoder_create fs = none ∧
    (sstv_encoder_create mode n).isSome = true ∧
    sstv_encoder_create (-1) n = none ∧
    sstv_encoder_create SSTV_MODE_COUNT n = none := by
  refine ⟨?_, ?_, ?_, ?_⟩
  · simp [sstv_decoder_create, hfs]
  · unfold sstv_encoder_create
    rw [if_neg (by push_neg; exact ⟨hm.1, hm.2⟩)]
    rfl
  · simp [sstv_encoder_create]
  · simp [sstv_encoder_create]

theorem c8_create_amended_witness :
    sstv_decoder_create 0 = none ∧
    (sstv_encoder_create SSTV_BW12 48000).isSome = true ∧
    sstv_encoder_create (-1) 48000 = none ∧
    sstv_encoder_create SSTV_MODE_COUNT 48000 = none :=
  c8_create_amended 0 SSTV_BW12 48000 le_rfl (by decide)

end SSTV
